/-
Verification of the SafeScore risk-scoring core against its specification.

The development shallowly embeds the Python sources:
  * app/engine/rules.py   — rule evaluators, context loader, rule order
  * app/engine/scoring.py — ScoreEngine.score_transaction
  * main.py               — run_once (dedup, scoring loop, explain payload,
                            seen/history updates)

Modelling conventions:
  * Timestamps: a transaction carries the parse result of its ISO timestamp
    string — `some t` (instant in seconds, already normalised to UTC, the
    `utcoffset() is None → UTC` defaulting included) or `none` (the string
    that `datetime.fromisoformat` rejects).
  * Python sets are modelled by lists queried with membership; `dict`s whose
    keys are the eight distinct rule names are association lists in insertion
    order.
  * A rule evaluator returns `Option (Bool × String)`: `none` models an
    evaluator raising an exception (caught by the engine's `try/except`);
    the eight concrete rules are total and always return `some`.
  * Environment-derived configuration (AMOUNT_THRESHOLD, VELOCITY_WINDOW_MIN,
    VELOCITY_MAX_TX) is an explicit `Config` record; the engine's resolved
    weight table (`DEFAULT_WEIGHTS` overlaid by weights.json) is a function
    `String → Int`.
  * `round(x, 1)` (Python: round half to even) is exact rational rounding to
    one decimal, half to even.
-/
import Mathlib

namespace SafeScore

/-- A transaction record as consumed by the rules; `timestamp` holds the
parse result of the timestamp string, `tx_id = ""` models a missing or
empty identifier (both falsy in Python). -/
structure Tx where
  tx_id : String
  timestamp : Option Int
  from_address : String
  to_address : String
  amount : ℚ
  token : String
  method : String
deriving DecidableEq

/-- The projection of a prior-history row that the velocity rule reads
(`from_address`, `timestamp`). -/
structure PrevTx where
  from_address : String
  timestamp : Option Int
deriving DecidableEq

/-- rules.py `RuleContext` (the `data_dir` path is irrelevant once the sets
are loaded and is omitted). -/
structure RuleContext where
  blacklist : List String
  watchlist : List String
  sensitive_tokens : List String
  sensitive_methods : List String
  known_addresses : List String
  prev_transactions : List PrevTx
deriving DecidableEq

/-- Environment configuration read by the rules. -/
structure Config where
  amount_threshold : ℚ
  velocity_window_min : Int
  velocity_max_tx : Int
deriving DecidableEq

/-- Defaults: AMOUNT_THRESHOLD=10000, VELOCITY_WINDOW_MIN=10,
VELOCITY_MAX_TX=5. -/
def defaultConfig : Config :=
  { amount_threshold := 10000, velocity_window_min := 10, velocity_max_tx := 5 }

/-- rules.py `DEFAULT_WEIGHTS`. -/
def DEFAULT_WEIGHTS : String → Int := fun n =>
  if n = "blacklist" then 60
  else if n = "watchlist" then 30
  else if n = "high_amount" then 25
  else if n = "unusual_hour" then 15
  else if n = "new_address" then 40
  else if n = "velocity" then 20
  else if n = "sensitive_token" then 15
  else if n = "sensitive_method" then 15
  else 0

/-- Python `str.lower()` (ASCII case mapping, which covers every
address/token/method value the pipeline compares). -/
def strLower (s : String) : String := ⟨s.data.map Char.toLower⟩

/-- Python `str.upper()` (ASCII case mapping). -/
def strUpper (s : String) : String := ⟨s.data.map Char.toUpper⟩

/-- rules.py `carregar_contexto`: the four reference sets are loaded
lower-cased by `_load_set`, `known` is lower-cased here, and each prior
row's `from_address` is lower-cased (`stx`). The reference sets are passed
already loaded (CSV reading is I/O). -/
def carregar_contexto (blacklist watchlist sensitive_tokens sensitive_methods :
    List String) (known : List String) (prev : List PrevTx) : RuleContext :=
  { blacklist := blacklist
    watchlist := watchlist
    sensitive_tokens := sensitive_tokens
    sensitive_methods := sensitive_methods
    known_addresses := known.map strLower
    prev_transactions :=
      prev.map fun r => { r with from_address := strLower r.from_address } }

/-- Hour of day in UTC of an instant given in seconds
(`ts.astimezone(timezone.utc).hour`). -/
def hourOfDay (t : Int) : Int := (t.fdiv 3600).fmod 24

def rule_blacklist (tx : Tx) (ctx : RuleContext) : Option (Bool × String) :=
  if ctx.blacklist.contains (strLower tx.from_address)
      || ctx.blacklist.contains (strLower tx.to_address) then
    some (true, "Endereço em blacklist")
  else some (false, "")

def rule_watchlist (tx : Tx) (ctx : RuleContext) : Option (Bool × String) :=
  if ctx.watchlist.contains (strLower tx.from_address)
      || ctx.watchlist.contains (strLower tx.to_address) then
    some (true, "Endereço em watchlist")
  else some (false, "")

def rule_high_amount (cfg : Config) (tx : Tx) (_ctx : RuleContext) :
    Option (Bool × String) :=
  if cfg.amount_threshold ≤ tx.amount then
    some (true, "Valor alto (>= " ++ toString cfg.amount_threshold ++ ")")
  else some (false, "")

def rule_unusual_hour (tx : Tx) (_ctx : RuleContext) : Option (Bool × String) :=
  match tx.timestamp with
  | none => some (false, "")
  | some ts =>
    if ([0, 1, 2, 3, 4, 5] : List Int).contains (hourOfDay ts) then
      some (true, "Horário incomum (madrugada UTC)")
    else some (false, "")

def rule_new_address (tx : Tx) (ctx : RuleContext) : Option (Bool × String) :=
  let de := (strLower tx.from_address)
  if de ≠ "" && !ctx.known_addresses.contains de then
    some (true, "Endereço remetente não conhecido")
  else some (false, "")

/-- The count `cnt` computed inside rules.py `rule_velocity`: prior rows with
a parseable timestamp `rts`, `from_address == de`, and
`ts - window ≤ rts ≤ ts` (window in minutes, timestamps in seconds). -/
def velocityCnt (jan : Int) (de : String) (ts : Int) (prev : List PrevTx) : Nat :=
  (prev.filter fun r =>
    match r.timestamp with
    | none => false
    | some rts => r.from_address == de && decide (ts - 60 * jan ≤ rts)
        && decide (rts ≤ ts)).length

def rule_velocity (cfg : Config) (tx : Tx) (ctx : RuleContext) :
    Option (Bool × String) :=
  match tx.timestamp with
  | none => some (false, "")
  | some ts =>
    let jan := cfg.velocity_window_min
    let mx := cfg.velocity_max_tx
    let de := (strLower tx.from_address)
    let cnt := velocityCnt jan de ts ctx.prev_transactions
    if mx ≤ (cnt : Int) then
      some (true, "Alta velocidade (" ++ toString cnt ++ " tx em "
        ++ toString jan ++ "min)")
    else some (false, "")

def rule_sensitive_token (tx : Tx) (ctx : RuleContext) : Option (Bool × String) :=
  if (ctx.sensitive_tokens.map strUpper).contains (strUpper tx.token) then
    some (true, "Token sensível")
  else some (false, "")

def rule_sensitive_method (tx : Tx) (ctx : RuleContext) : Option (Bool × String) :=
  if (ctx.sensitive_methods.map strUpper).contains (strUpper tx.method) then
    some (true, "Método sensível")
  else some (false, "")

/-- rules.py `ORDER`: the fixed evaluation order. -/
def ORDER (cfg : Config) : List (String × (Tx → RuleContext → Option (Bool × String))) :=
  [("blacklist", rule_blacklist),
   ("watchlist", rule_watchlist),
   ("high_amount", rule_high_amount cfg),
   ("unusual_hour", rule_unusual_hour),
   ("new_address", rule_new_address),
   ("velocity", rule_velocity cfg),
   ("sensitive_token", rule_sensitive_token),
   ("sensitive_method", rule_sensitive_method)]

/-- scoring.py `ScoreEngine.score_transaction` output. -/
structure ScoreResult where
  score : Int
  reasons : List String
  hits : List (String × Int)
  velocity_last_window : Nat
deriving DecidableEq

/-- The accumulation loop of `score_transaction` over already-evaluated rule
outcomes: `none` outcomes (a raised exception) become `(false, "")` via the
`except` clause; a fired rule records its weight when strictly positive,
appends its reason when non-empty, and bumps `vel_info` when named
"velocity". Returns (hits, reasons, vel_info). -/
def scoreAccum (w : String → Int) :
    List (String × Option (Bool × String)) → List (String × Int) × List String × Nat
  | [] => ([], [], 0)
  | (name, o) :: rest =>
    let fr := o.getD (false, "")
    let acc := scoreAccum w rest
    if fr.1 then
      let peso := w name
      ((if 0 < peso then [(name, peso)] else []) ++ acc.1,
       (if fr.2 ≠ "" then [fr.2] else []) ++ acc.2.1,
       (if name = "velocity" then 1 else 0) + acc.2.2)
    else acc

/-- `int(sum(hits.values()))`. -/
def sumHits (hits : List (String × Int)) : Int := (hits.map Prod.snd).sum

/-- `score_transaction` after the rules have been evaluated: penalty, score
clamp, and result assembly. -/
def scoreCore (w : String → Int) (outs : List (String × Option (Bool × String))) :
    ScoreResult :=
  let acc := scoreAccum w outs
  { score := max 0 (100 - sumHits acc.1)
    reasons := acc.2.1
    hits := acc.1
    velocity_last_window := acc.2.2 }

/-- `score_transaction` generalised over the rule battery it iterates
(the source iterates the module-level `ORDER`). -/
def score_with (w : String → Int)
    (rules : List (String × (Tx → RuleContext → Option (Bool × String))))
    (ctx : RuleContext) (tx : Tx) : ScoreResult :=
  scoreCore w (rules.map fun p => (p.1, p.2 tx ctx))

/-- scoring.py `ScoreEngine.score_transaction`: evaluate `ORDER` against the
transaction and the context, with the engine's resolved weight table `w`
(`DEFAULT_WEIGHTS` overlaid by the optional weights.json override). -/
def score_transaction (w : String → Int) (cfg : Config) (ctx : RuleContext)
    (tx : Tx) : ScoreResult :=
  score_with w (ORDER cfg) ctx tx

/-- Round half to even to an integer on ℚ (the semantics of Python's
`round` at exact values). -/
def roundHalfEven (q : ℚ) : ℤ :=
  let f := ⌊q⌋
  let r := q - (f : ℚ)
  if r < 1 / 2 then f
  else if 1 / 2 < r then f + 1
  else if f % 2 = 0 then f else f + 1

/-- Python `round(x, 1)` at exact values: one decimal, half to even. -/
def round1 (q : ℚ) : ℚ := (roundHalfEven (10 * q) : ℚ) / 10

/-- main.py run_once: `contrib_pct = {k: round((v / penalty_total) * 100, 1)
for k, v in hits.items()} if penalty_total > 0 else {}`. -/
def contrib_pct (hits : List (String × Int)) : List (String × ℚ) :=
  let penalty_total := sumHits hits
  if 0 < penalty_total then
    hits.map fun p => (p.1, round1 ((p.2 : ℚ) / (penalty_total : ℚ) * 100))
  else []

/-- The sum of the contribution percentages (`sum(contrib_pct.values())`). -/
def contribSum (hits : List (String × Int)) : ℚ :=
  ((contrib_pct hits).map Prod.snd).sum

/-- A persisted output row (main.py run_once step 4); the constant `chain`
label and the string renderings (joined reasons, JSON explain) are
presentation and carried here in structured form. -/
structure Row where
  tx_id : String
  timestamp : Option Int
  from_address : String
  to_address : String
  amount : ℚ
  token : String
  method : String
  is_new_address : Bool
  velocity_last_window : Nat
  score : Int
  penalty_total : Int
  reasons : List String
  explain_weights : List (String × Int)
  explain_contrib : List (String × ℚ)
deriving DecidableEq

/-- The in-memory `ScoreEngine` state that main.py threads across ticks:
`prev` (engine.prev) and the context built once at construction. -/
structure Engine where
  prev : List PrevTx
  known : List String
  weights : String → Int
  ctx : RuleContext

/-- scoring.py `ScoreEngine.__init__`: the context is built from `prev` and
`known` once, at construction; `weights` is the resolved table. -/
def mkEngine (blacklist watchlist sensitive_tokens sensitive_methods :
    List String) (prev : List PrevTx) (known : List String)
    (w : String → Int) : Engine :=
  { prev := prev, known := known, weights := w
    ctx := carregar_contexto blacklist watchlist sensitive_tokens
      sensitive_methods known prev }

/-- main.py `filter_by_addresses`. -/
def filter_by_addresses (txs : List Tx) (watch : List String)
    (require_match : Bool) : List Tx :=
  if !require_match || watch.isEmpty then txs
  else txs.filter fun tx =>
    watch.contains (strLower tx.from_address) || watch.contains (strLower tx.to_address)

/-- One row of main.py run_once step 4 for one surviving transaction. -/
def scoreRow (w : String → Int) (cfg : Config) (ctx : RuleContext) (tx : Tx) :
    Row :=
  let scored := score_transaction w cfg ctx tx
  let hits := scored.hits
  { tx_id := tx.tx_id
    timestamp := tx.timestamp
    from_address := (strLower tx.from_address)
    to_address := (strLower tx.to_address)
    amount := tx.amount
    token := tx.token
    method := tx.method
    is_new_address := (hits.lookup "new_address").isSome
    velocity_last_window := scored.velocity_last_window
    score := scored.score
    penalty_total := sumHits hits
    reasons := scored.reasons
    explain_weights := hits
    explain_contrib := contrib_pct hits }

/-- The history projection of a persisted row that the velocity rule would
read back (main.py appends the full row dict to engine.prev). -/
def rowToPrev (r : Row) : PrevTx :=
  { from_address := r.from_address, timestamp := r.timestamp }

/-- What one tick returns and the state it leaves behind. -/
structure TickResult where
  out_rows : List Row
  pendings : List Row
  seen : List String
  engine : Engine

/-- main.py `run_once`, after collection (external): monitored-address
filter, dedup by tx_id (missing/empty id or id in `seen` drops the
transaction), early return on an empty batch, scoring, pending
classification (`score < limiar`), then `seen.update(...)` over the scored
rows with a truthy id, and `engine.prev.extend(out_rows)`. Durable writes
(CSV persistence, known-address file, alert delivery) are external
collaborators. -/
def run_once (cfg : Config) (limiar : Int) (e : Engine) (seen : List String)
    (txs : List Tx) (watch : List String) (require_match : Bool) : TickResult :=
  let txs1 := filter_by_addresses txs watch require_match
  let txs2 := txs1.filter fun t => t.tx_id != "" && !seen.contains t.tx_id
  if txs2.isEmpty then
    { out_rows := [], pendings := [], seen := seen, engine := e }
  else
    let out_rows := txs2.map (scoreRow e.weights cfg e.ctx)
    { out_rows := out_rows
      pendings := out_rows.filter fun r => r.score < limiar
      seen := seen ++ (out_rows.filter fun r => r.tx_id != "").map Row.tx_id
      engine := { e with prev := e.prev ++ out_rows.map rowToPrev } }

/-! ### Helper lemmas about the accumulation loop -/

theorem scoreAccum_append (w : String → Int)
    (l1 l2 : List (String × Option (Bool × String))) :
    scoreAccum w (l1 ++ l2) =
      ((scoreAccum w l1).1 ++ (scoreAccum w l2).1,
       (scoreAccum w l1).2.1 ++ (scoreAccum w l2).2.1,
       (scoreAccum w l1).2.2 + (scoreAccum w l2).2.2) := by
  induction l1 with
  | nil => simp [scoreAccum]
  | cons hd tl ih =>
    obtain ⟨name, o⟩ := hd
    simp only [List.cons_append, scoreAccum]
    by_cases hfr : (o.getD (false, "")).1 <;>
      simp [hfr, ih, List.append_assoc, Nat.add_assoc]

theorem scoreAccum_vel (w : String → Int)
    (outs : List (String × Option (Bool × String))) :
    (scoreAccum w outs).2.2 =
      outs.countP fun p => decide (p.1 = "velocity") && (p.2.getD (false, "")).1 := by
  induction outs with
  | nil => simp [scoreAccum]
  | cons hd tl ih =>
    obtain ⟨name, o⟩ := hd
    by_cases hfr : (o.getD (false, "")).1 <;>
      by_cases hn : name = "velocity" <;>
      simp [scoreAccum, List.countP_cons, hfr, hn, ih, Nat.add_comm]

theorem scoreAccum_hits_length (w : String → Int)
    (outs : List (String × Option (Bool × String))) :
    (scoreAccum w outs).1.length ≤ outs.length := by
  induction outs with
  | nil => simp [scoreAccum]
  | cons hd tl ih =>
    obtain ⟨name, o⟩ := hd
    by_cases hfr : (o.getD (false, "")).1 <;>
      by_cases hp : 0 < w name <;>
      simp [scoreAccum, hfr, hp] <;> omega

/-! ### C1 -/

/-- C1: for every transaction and every weight table, the score returned by
`ScoreEngine.score_transaction` equals `max(0, 100 - sum(hits.values()))`
where `hits` is the fired-rule-to-weight mapping in the same result. -/
theorem score_transaction_score_clamp (w : String → Int) (cfg : Config)
    (ctx : RuleContext) (tx : Tx) :
    (score_transaction w cfg ctx tx).score
      = max 0 (100 - sumHits (score_transaction w cfg ctx tx).hits) := rfl

/-! ### C2 -/

/-- A transaction arriving at 12:00 UTC with six prior same-sender rows in
the trailing ten minutes. -/
def txC2 : Tx :=
  { tx_id := "T2", timestamp := some 43200, from_address := "0xA",
    to_address := "0xB", amount := 5, token := "ETH", method := "TRANSFER" }

def prevC2 : List PrevTx :=
  [⟨"0xA", some 42900⟩, ⟨"0xA", some 42960⟩, ⟨"0xA", some 43020⟩,
   ⟨"0xA", some 43080⟩, ⟨"0xA", some 43140⟩, ⟨"0xA", some 43200⟩]

def ctxC2 : RuleContext := carregar_contexto [] [] [] [] [] prevC2

/-- C2 counterexample: with six qualifying prior rows the velocity rule
fires with internal count 6, yet `velocity_last_window` is 1: the field is
not the number of qualifying prior history entries. -/
theorem velocity_last_window_not_count :
    (score_transaction DEFAULT_WEIGHTS defaultConfig ctxC2 txC2).velocity_last_window = 1 ∧
    velocityCnt defaultConfig.velocity_window_min (strLower txC2.from_address) 43200
      ctxC2.prev_transactions = 6 ∧
    (score_transaction DEFAULT_WEIGHTS defaultConfig ctxC2 txC2).velocity_last_window ≠
      velocityCnt defaultConfig.velocity_window_min (strLower txC2.from_address) 43200
        ctxC2.prev_transactions := by
  decide

/-- C2 amended: `velocity_last_window` is an indicator — 1 when the velocity
rule fired for the transaction and 0 otherwise (`vel_info += 1` runs once,
only on the `"velocity"` entry of `ORDER`). -/
theorem velocity_last_window_indicator (w : String → Int) (cfg : Config)
    (ctx : RuleContext) (tx : Tx) :
    (score_transaction w cfg ctx tx).velocity_last_window
      = ((rule_velocity cfg tx ctx).getD (false, "")).1.toNat := by
  simp only [score_transaction, score_with, scoreCore, ORDER, scoreAccum_vel,
    List.map_cons, List.map_nil, List.countP_cons, List.countP_nil]
  cases h : ((rule_velocity cfg tx ctx).getD (false, "")).1 <;> simp [h]

/-! ### C3 -/

/-- A mock transaction from sender `0xA` used to drive the two-tick session
of C3. -/
def mkTxC3 (i : String) (t : Int) : Tx :=
  { tx_id := i, timestamp := some t, from_address := "0xA",
    to_address := "0xB", amount := 5, token := "ETH", method := "TRANSFER" }

/-- Session start: empty reference sets, no known addresses, empty scored
history (`ScoreEngine(prev_transactions=[], ...)`). -/
def engineC3 : Engine := mkEngine [] [] [] [] [] [] DEFAULT_WEIGHTS

/-- Tick 1: five transactions from `0xA` at 12:00–12:04 UTC. -/
def tick1C3 : TickResult :=
  run_once defaultConfig 50 engineC3 []
    [mkTxC3 "A1" 43200, mkTxC3 "A2" 43260, mkTxC3 "A3" 43320,
     mkTxC3 "A4" 43380, mkTxC3 "A5" 43440] [] false

/-- Tick 2 of the same session: a sixth transaction from `0xA` at 12:05. -/
def txC3 : Tx := mkTxC3 "A6" 43500

def tick2C3 : TickResult :=
  run_once defaultConfig 50 tick1C3.engine tick1C3.seen [txC3] [] false

/-- C3 failing input: the five rows appended to `engine.prev` at the end of
tick 1 all qualify for the sixth transaction's trailing window (count 5 ≥
max 5), yet in tick 2 the velocity rule — which reads the context built at
engine construction, not `engine.prev` — counts 0, does not fire, and the
persisted row reports `velocity_last_window = 0`. -/
theorem velocity_history_not_visible :
    velocityCnt defaultConfig.velocity_window_min (strLower txC3.from_address)
      43500 tick1C3.engine.prev = 5 ∧
    defaultConfig.velocity_max_tx ≤ (5 : Int) ∧
    velocityCnt defaultConfig.velocity_window_min (strLower txC3.from_address)
      43500 tick1C3.engine.ctx.prev_transactions = 0 ∧
    ((rule_velocity defaultConfig txC3 tick1C3.engine.ctx).getD (false, "")).1 = false ∧
    tick2C3.out_rows.map Row.velocity_last_window = [0] := by
  decide

/-! ### C4 -/

/-- C4: a rule evaluator that raises (modelled by the `none` outcome) is
treated by `score_transaction`'s `try/except` exactly as a rule returning
`(False, "")`: no weight, no reason, the exception does not escape, and the
rules before and after it are still evaluated — the whole result coincides
with the one where the raising rule is replaced by `(False, "")`. -/
theorem raising_rule_is_not_fired (w : String → Int)
    (pre post : List (String × (Tx → RuleContext → Option (Bool × String))))
    (name : String) (f : Tx → RuleContext → Option (Bool × String))
    (ctx : RuleContext) (tx : Tx) (h : f tx ctx = none) :
    score_with w (pre ++ [(name, f)] ++ post) ctx tx
      = score_with w (pre ++ [(name, fun _ _ => some (false, ""))] ++ post) ctx tx := by
  simp [score_with, scoreCore, List.map_append, scoreAccum_append, scoreAccum, h]

def txC4 : Tx :=
  { tx_id := "T4", timestamp := some 0, from_address := "0xC",
    to_address := "0xD", amount := 1, token := "ETH", method := "TRANSFER" }

def ctxC4 : RuleContext := carregar_contexto [] [] [] [] [] []

/-- Witness for C4 at a concrete battery: a raising middle rule between
`blacklist` and `watchlist`. -/
theorem raising_rule_is_not_fired_witness :
    score_with DEFAULT_WEIGHTS
        ([("blacklist", rule_blacklist)] ++ [("boom", fun _ _ => none)]
          ++ [("watchlist", rule_watchlist)]) ctxC4 txC4
      = score_with DEFAULT_WEIGHTS
        ([("blacklist", rule_blacklist)]
          ++ [("boom", fun _ _ => some (false, ""))]
          ++ [("watchlist", rule_watchlist)]) ctxC4 txC4 :=
  raising_rule_is_not_fired DEFAULT_WEIGHTS _ _ "boom" _ ctxC4 txC4 rfl

/-! ### C5 -/

/-- The rule battery without the two time-dependent rules (`unusual_hour`,
`velocity`). -/
def ORDER_sem_tempo (cfg : Config) :
    List (String × (Tx → RuleContext → Option (Bool × String))) :=
  [("blacklist", rule_blacklist),
   ("watchlist", rule_watchlist),
   ("high_amount", rule_high_amount cfg),
   ("new_address", rule_new_address),
   ("sensitive_token", rule_sensitive_token),
   ("sensitive_method", rule_sensitive_method)]

/-- C5: on a transaction whose timestamp does not parse, `unusual_hour` and
`velocity` both report not fired with empty reason, and the full scoring
result is the one obtained from the remaining six rules alone. -/
theorem unparsable_timestamp_time_rules_not_fired (w : String → Int)
    (cfg : Config) (ctx : RuleContext) (tx : Tx) (h : tx.timestamp = none) :
    rule_unusual_hour tx ctx = some (false, "") ∧
    rule_velocity cfg tx ctx = some (false, "") ∧
    score_transaction w cfg ctx tx = score_with w (ORDER_sem_tempo cfg) ctx tx := by
  refine ⟨by simp [rule_unusual_hour, h], by simp [rule_velocity, h], ?_⟩
  simp [score_transaction, score_with, ORDER, ORDER_sem_tempo, scoreCore,
    scoreAccum, rule_unusual_hour, rule_velocity, h]

def txC5 : Tx :=
  { tx_id := "T5", timestamp := none, from_address := "0xC",
    to_address := "0xD", amount := 1, token := "ETH", method := "TRANSFER" }

/-- Witness for C5 at a concrete unparsable-timestamp transaction. -/
theorem unparsable_timestamp_time_rules_not_fired_witness :
    rule_unusual_hour txC5 ctxC4 = some (false, "") ∧
    rule_velocity defaultConfig txC5 ctxC4 = some (false, "") ∧
    score_transaction DEFAULT_WEIGHTS defaultConfig ctxC4 txC5
      = score_with DEFAULT_WEIGHTS (ORDER_sem_tempo defaultConfig) ctxC4 txC5 :=
  unparsable_timestamp_time_rules_not_fired DEFAULT_WEIGHTS defaultConfig
    ctxC4 txC5 rfl

/-! ### C6 -/

/-- The spec's wording of the velocity-qualifying count (§4.2): prior
history entries with the same lower-cased sender and a parseable timestamp
lying in the inclusive interval `[ts - window, ts]`. Stated over the raw
history as handed to the context loader. -/
def specVelocityQualifying (window_min : Int) (tx : Tx) (ts : Int)
    (prev : List PrevTx) : Nat :=
  prev.countP fun r =>
    strLower r.from_address == strLower tx.from_address &&
      match r.timestamp with
      | none => false
      | some rts =>
        decide (ts - 60 * window_min ≤ rts) && decide (rts ≤ ts)

theorem velocityCnt_carregar (jan ts : Int) (bl wl st sm kn : List String)
    (prev : List PrevTx) (tx : Tx) :
    velocityCnt jan (strLower tx.from_address) ts
        ((carregar_contexto bl wl st sm kn prev).prev_transactions)
      = specVelocityQualifying jan tx ts prev := by
  simp only [velocityCnt, carregar_contexto, specVelocityQualifying,
    ← List.countP_eq_length_filter, List.countP_map]
  apply List.countP_congr
  intro r _
  cases h : r.timestamp with
  | none => simp [h]
  | some rts =>
    simp only [Function.comp_apply, h, beq_iff_eq, Bool.and_eq_true,
      decide_eq_true_eq]
    constructor <;> intro hx <;> tauto

/-- C6: over any context built by the loader, the velocity rule fires iff
the number of prior history entries with the same lower-cased sender and a
parseable timestamp in the inclusive window `[ts - 60·window, ts]` is at
least the configured max count (defaults: window 10 minutes, max 5). -/
theorem velocity_fires_iff_count (cfg : Config) (bl wl st sm kn : List String)
    (prev : List PrevTx) (tx : Tx) (ts : Int) (h : tx.timestamp = some ts) :
    ((rule_velocity cfg tx (carregar_contexto bl wl st sm kn prev)).getD
        (false, "")).1 = true
      ↔ cfg.velocity_max_tx
          ≤ (specVelocityQualifying cfg.velocity_window_min tx ts prev : Int) := by
  rw [show (specVelocityQualifying cfg.velocity_window_min tx ts prev : Int)
      = (velocityCnt cfg.velocity_window_min (strLower tx.from_address) ts
          ((carregar_contexto bl wl st sm kn prev).prev_transactions) : Int) by
    rw [velocityCnt_carregar]]
  simp only [rule_velocity, h]
  split_ifs with hc <;> simp [hc]

def txC6 : Tx :=
  { tx_id := "T6", timestamp := some 43500, from_address := "0xA",
    to_address := "0xB", amount := 5, token := "ETH", method := "TRANSFER" }

def prevC6 : List PrevTx :=
  [⟨"0xA", some 43200⟩, ⟨"0xA", some 43260⟩, ⟨"0xA", some 43320⟩,
   ⟨"0xA", some 43380⟩, ⟨"0xA", some 43440⟩]

/-- Witness for C6: five same-sender rows inside the default 10-minute
window make the rule fire. -/
theorem velocity_fires_iff_count_witness :
    ((rule_velocity defaultConfig txC6
        (carregar_contexto [] [] [] [] [] prevC6)).getD (false, "")).1 = true
      ↔ defaultConfig.velocity_max_tx
          ≤ (specVelocityQualifying defaultConfig.velocity_window_min txC6 43500
              prevC6 : Int) :=
  velocity_fires_iff_count defaultConfig [] [] [] [] [] prevC6 txC6 43500 rfl

/-! ### C7 -/

theorem mem_filter_by_addresses {t : Tx} {txs : List Tx} {watch : List String}
    {rm : Bool} (h : t ∈ filter_by_addresses txs watch rm) : t ∈ txs := by
  unfold filter_by_addresses at h
  split_ifs at h
  · exact h
  · exact (List.mem_filter.1 h).1

/-- C7: a tick whose batch contains only already-seen identifiers persists
zero rows and leaves the seen set and the engine (hence the velocity
history) unchanged: every such transaction is dropped before scoring. -/
theorem seen_batch_persists_nothing (cfg : Config) (limiar : Int) (e : Engine)
    (seen : List String) (txs : List Tx) (watch : List String) (rm : Bool)
    (h : ∀ t ∈ txs, seen.contains t.tx_id) :
    (run_once cfg limiar e seen txs watch rm).out_rows = [] ∧
    (run_once cfg limiar e seen txs watch rm).pendings = [] ∧
    (run_once cfg limiar e seen txs watch rm).seen = seen ∧
    (run_once cfg limiar e seen txs watch rm).engine = e := by
  have hnil : (filter_by_addresses txs watch rm).filter
      (fun t => t.tx_id != "" && !seen.contains t.tx_id) = [] := by
    rw [List.filter_eq_nil_iff]
    intro t ht
    simp only [Bool.not_eq_true, Bool.and_eq_false_imp, bne_eq_false_iff_eq,
      Bool.not_eq_false]
    intro _
    simpa using h t (mem_filter_by_addresses ht)
  simp only [run_once, hnil, List.isEmpty_nil]
  simp

def txC7 : Tx :=
  { tx_id := "T7", timestamp := some 0, from_address := "0xC",
    to_address := "0xD", amount := 1, token := "ETH", method := "TRANSFER" }

/-- Witness for C7: replaying a batch with the one already-seen identifier
`"T7"`. -/
theorem seen_batch_persists_nothing_witness :
    (run_once defaultConfig 50 engineC3 ["T7"] [txC7] [] false).out_rows = [] ∧
    (run_once defaultConfig 50 engineC3 ["T7"] [txC7] [] false).pendings = [] ∧
    (run_once defaultConfig 50 engineC3 ["T7"] [txC7] [] false).seen = ["T7"] ∧
    (run_once defaultConfig 50 engineC3 ["T7"] [txC7] [] false).engine = engineC3 :=
  seen_batch_persists_nothing defaultConfig 50 engineC3 ["T7"] [txC7] [] false
    (by decide)

/-! ### C8 -/

/-- C8: a fired rule whose resolved weight is 0 is absent from `hits` and
leaves the score exactly as if the rule were not in the battery, while its
non-empty reason is still appended to the reasons list. -/
theorem zero_weight_rule_no_penalty (w : String → Int)
    (pre post : List (String × (Tx → RuleContext → Option (Bool × String))))
    (name : String) (f : Tx → RuleContext → Option (Bool × String))
    (r : String) (ctx : RuleContext) (tx : Tx)
    (h0 : w name = 0) (hf : f tx ctx = some (true, r)) (hr : r ≠ "") :
    (score_with w (pre ++ [(name, f)] ++ post) ctx tx).hits
        = (score_with w (pre ++ post) ctx tx).hits ∧
    (score_with w (pre ++ [(name, f)] ++ post) ctx tx).score
        = (score_with w (pre ++ post) ctx tx).score ∧
    r ∈ (score_with w (pre ++ [(name, f)] ++ post) ctx tx).reasons := by
  refine ⟨?_, ?_, ?_⟩ <;>
    simp [score_with, scoreCore, List.map_append, scoreAccum_append,
      scoreAccum, hf, h0, hr]

/-- Witness for C8: a single zero-weight fired rule with reason
`"motivo"`. -/
theorem zero_weight_rule_no_penalty_witness :
    (score_with (fun _ => 0) ([] ++ [("nula", fun _ _ => some (true, "motivo"))]
        ++ []) ctxC4 txC4).hits
      = (score_with (fun _ => 0) ([] ++ []) ctxC4 txC4).hits ∧
    (score_with (fun _ => 0) ([] ++ [("nula", fun _ _ => some (true, "motivo"))]
        ++ []) ctxC4 txC4).score
      = (score_with (fun _ => 0) ([] ++ []) ctxC4 txC4).score ∧
    "motivo" ∈ (score_with (fun _ => 0)
        ([] ++ [("nula", fun _ _ => some (true, "motivo"))] ++ []) ctxC4 txC4).reasons :=
  zero_weight_rule_no_penalty (fun _ => 0) [] [] "nula"
    (fun _ _ => some (true, "motivo")) "motivo" ctxC4 txC4 rfl rfl (by decide)

/-! ### C9 -/

theorem roundHalfEven_err (q : ℚ) : |(roundHalfEven q : ℚ) - q| ≤ 1 / 2 := by
  have h1 : (⌊q⌋ : ℚ) ≤ q := Int.floor_le q
  have h2 : q < ⌊q⌋ + 1 := Int.lt_floor_add_one q
  rw [abs_le]
  simp only [roundHalfEven]
  split_ifs with ha hb hc <;> constructor <;> push_cast at * <;> linarith

theorem round1_err (q : ℚ) : |round1 q - q| ≤ 1 / 20 := by
  have h := roundHalfEven_err (10 * q)
  unfold round1
  rw [show (roundHalfEven (10 * q) : ℚ) / 10 - q
      = ((roundHalfEven (10 * q) : ℚ) - 10 * q) / 10 by ring, abs_div]
  rw [show |(10 : ℚ)| = 10 by norm_num]
  linarith

theorem sum_round1_err {α : Type} (g : α → ℚ) (L : List α) :
    |(L.map fun a => round1 (g a)).sum - (L.map g).sum|
      ≤ (L.length : ℚ) * (1 / 20) := by
  induction L with
  | nil => simp
  | cons a l ih =>
    simp only [List.map_cons, List.sum_cons, List.length_cons]
    have h1 := round1_err (g a)
    have h2 : |round1 (g a) + (l.map fun a => round1 (g a)).sum
        - (g a + (l.map g).sum)|
        ≤ |round1 (g a) - g a|
          + |(l.map fun a => round1 (g a)).sum - (l.map g).sum| := by
      rw [show round1 (g a) + (l.map fun a => round1 (g a)).sum
          - (g a + (l.map g).sum)
          = (round1 (g a) - g a)
            + ((l.map fun a => round1 (g a)).sum - (l.map g).sum) by ring]
      exact abs_add _ _
    push_cast
    linarith

theorem sum_map_term (L : List (String × Int)) (c : ℚ) :
    (L.map fun p => (p.2 : ℚ) / c * 100).sum
      = (((L.map Prod.snd).sum : Int) : ℚ) / c * 100 := by
  induction L with
  | nil => simp
  | cons a l ih =>
    simp only [List.map_cons, List.sum_cons, ih]
    push_cast
    ring

/-- C9 amended: for every scored transaction with a strictly positive
penalty, the per-rule contribution percentages `round(weight/penalty*100, 1)`
sum to 100.0 within 0.4 — each of the at most eight rounded terms carries at
most 0.05 rounding error (the claimed tolerance 0.2 is exceeded; see the
counterexample). -/
theorem contrib_pct_sum_tolerance (w : String → Int) (cfg : Config)
    (ctx : RuleContext) (tx : Tx)
    (h : 0 < sumHits (score_transaction w cfg ctx tx).hits) :
    |contribSum (score_transaction w cfg ctx tx).hits - 100| ≤ 2 / 5 := by
  have hlen : (score_transaction w cfg ctx tx).hits.length ≤ 8 := by
    have := scoreAccum_hits_length w ((ORDER cfg).map fun p => (p.1, p.2 tx ctx))
    simpa [score_transaction, score_with, scoreCore, ORDER] using this
  set hits := (score_transaction w cfg ctx tx).hits with hh
  have hc0 : ((sumHits hits : Int) : ℚ) ≠ 0 := by
    have : (0 : ℚ) < ((sumHits hits : Int) : ℚ) := by exact_mod_cast h
    linarith
  have hterm : (hits.map fun p =>
      (p.2 : ℚ) / ((sumHits hits : Int) : ℚ) * 100).sum = 100 := by
    rw [sum_map_term]
    rw [show (((hits.map Prod.snd).sum : Int) : ℚ)
        = ((sumHits hits : Int) : ℚ) by rw [sumHits]]
    field_simp
  have herr := sum_round1_err
    (fun p => (p.2 : ℚ) / ((sumHits hits : Int) : ℚ) * 100) hits
  have hsum : contribSum hits
      = (hits.map fun p =>
          round1 ((p.2 : ℚ) / ((sumHits hits : Int) : ℚ) * 100)).sum := by
    unfold contribSum contrib_pct
    rw [if_pos h, List.map_map]
    rfl
  rw [hterm] at herr
  rw [hsum]
  have hlenq : (hits.length : ℚ) ≤ 8 := by exact_mod_cast hlen
  calc |(hits.map fun p =>
        round1 ((p.2 : ℚ) / ((sumHits hits : Int) : ℚ) * 100)).sum - 100|
      ≤ (hits.length : ℚ) * (1 / 20) := herr
    _ ≤ 2 / 5 := by linarith

/-- A weight table under which all eight rules fire with penalty 667. -/
def wC9 : String → Int := fun n =>
  if n = "blacklist" then 47
  else if n = "watchlist" then 63
  else if n = "high_amount" then 75
  else if n = "unusual_hour" then 93
  else if n = "new_address" then 97
  else if n = "velocity" then 89
  else if n = "sensitive_token" then 100
  else 103

/-- A 03:00 UTC transaction of 20000 USDT via APPROVE from a blacklisted,
unknown, high-velocity sender to a watchlisted recipient: all eight rules
fire. -/
def txC9 : Tx :=
  { tx_id := "T9", timestamp := some 10800, from_address := "0xBAD",
    to_address := "0xW", amount := 20000, token := "USDT", method := "APPROVE" }

def prevC9 : List PrevTx :=
  [⟨"0xBAD", some 10740⟩, ⟨"0xBAD", some 10680⟩, ⟨"0xBAD", some 10620⟩,
   ⟨"0xBAD", some 10560⟩, ⟨"0xBAD", some 10500⟩]

def ctxC9 : RuleContext :=
  carregar_contexto ["0xbad"] ["0xw"] ["usdt"] ["approve"] [] prevC9

theorem roundHalfEven_down (q : ℚ) (n : ℤ) (h1 : (n : ℚ) ≤ q)
    (h2 : q < (n : ℚ) + 1 / 2) : roundHalfEven q = n := by
  have hf : ⌊q⌋ = n := by
    rw [Int.floor_eq_iff]
    exact ⟨h1, by linarith⟩
  simp only [roundHalfEven, hf]
  rw [if_pos (by linarith)]

theorem roundHalfEven_up (q : ℚ) (n : ℤ) (h1 : (n : ℚ) + 1 / 2 < q)
    (h2 : q < (n : ℚ) + 1) : roundHalfEven q = n + 1 := by
  have hf : ⌊q⌋ = n := by
    rw [Int.floor_eq_iff]
    exact ⟨by linarith, by linarith⟩
  simp only [roundHalfEven, hf]
  rw [if_neg (by linarith), if_pos (by linarith)]

theorem round1_down (q : ℚ) (n : ℤ) (h1 : (n : ℚ) ≤ 10 * q)
    (h2 : 10 * q < (n : ℚ) + 1 / 2) : round1 q = (n : ℚ) / 10 := by
  unfold round1
  rw [roundHalfEven_down (10 * q) n h1 h2]

theorem round1_up (q : ℚ) (n : ℤ) (h1 : (n : ℚ) + 1 / 2 < 10 * q)
    (h2 : 10 * q < (n : ℚ) + 1) : round1 q = ((n : ℚ) + 1) / 10 := by
  unfold round1
  rw [roundHalfEven_up (10 * q) n h1 h2]
  push_cast
  ring

/-- C9 counterexample: with weights 47+63+75+93+97+89+100+103 = 667 the
rounded contribution percentages are 7.0+9.4+11.2+13.9+14.5+13.3+15.0+15.4
= 99.7: the sum misses 100.0 by 0.3, outside the claimed 0.2 tolerance. -/
theorem contrib_pct_sum_violates_claimed_tolerance :
    0 < sumHits (score_transaction wC9 defaultConfig ctxC9 txC9).hits ∧
    contribSum (score_transaction wC9 defaultConfig ctxC9 txC9).hits = 997 / 10 ∧
    ¬ (|contribSum (score_transaction wC9 defaultConfig ctxC9 txC9).hits - 100|
        ≤ 1 / 5) := by
  have hhits : (score_transaction wC9 defaultConfig ctxC9 txC9).hits
      = [("blacklist", 47), ("watchlist", 63), ("high_amount", 75),
         ("unusual_hour", 93), ("new_address", 97), ("velocity", 89),
         ("sensitive_token", 100), ("sensitive_method", 103)] := by decide
  have e1 : round1 ((4700 : ℚ) / 667) = 7 := by
    rw [round1_down ((4700 : ℚ) / 667) 70 (by norm_num) (by norm_num)]; norm_num
  have e2 : round1 ((6300 : ℚ) / 667) = 47 / 5 := by
    rw [round1_down ((6300 : ℚ) / 667) 94 (by norm_num) (by norm_num)]; norm_num
  have e3 : round1 ((7500 : ℚ) / 667) = 56 / 5 := by
    rw [round1_down ((7500 : ℚ) / 667) 112 (by norm_num) (by norm_num)]; norm_num
  have e4 : round1 ((9300 : ℚ) / 667) = 139 / 10 := by
    rw [round1_down ((9300 : ℚ) / 667) 139 (by norm_num) (by norm_num)]; norm_num
  have e5 : round1 ((9700 : ℚ) / 667) = 29 / 2 := by
    rw [round1_down ((9700 : ℚ) / 667) 145 (by norm_num) (by norm_num)]; norm_num
  have e6 : round1 ((8900 : ℚ) / 667) = 133 / 10 := by
    rw [round1_down ((8900 : ℚ) / 667) 133 (by norm_num) (by norm_num)]; norm_num
  have e7 : round1 ((10000 : ℚ) / 667) = 15 := by
    rw [round1_up ((10000 : ℚ) / 667) 149 (by norm_num) (by norm_num)]; norm_num
  have e8 : round1 ((10300 : ℚ) / 667) = 77 / 5 := by
    rw [round1_down ((10300 : ℚ) / 667) 154 (by norm_num) (by norm_num)]; norm_num
  have hcs : contribSum (score_transaction wC9 defaultConfig ctxC9 txC9).hits
      = 997 / 10 := by
    rw [hhits]
    unfold contribSum contrib_pct sumHits
    norm_num [e1, e2, e3, e4, e5, e6, e7, e8]
  refine ⟨by decide, hcs, ?_⟩
  rw [hcs, abs_le]
  norm_num

/-- Witness for the amended C9 at the same all-rules-fired input. -/
theorem contrib_pct_sum_tolerance_witness :
    |contribSum (score_transaction wC9 defaultConfig ctxC9 txC9).hits - 100|
      ≤ 2 / 5 :=
  contrib_pct_sum_tolerance wC9 defaultConfig ctxC9 txC9 (by decide)

/-! ### C10 -/

/-- C10: a candidate transaction with a missing/empty identifier is dropped
at the dedup step: the whole tick — scored rows, pendings, seen set, engine
history — is exactly as if the transaction had not been in the batch. -/
theorem empty_tx_id_dropped (cfg : Config) (limiar : Int) (e : Engine)
    (seen : List String) (l1 l2 : List Tx) (tx : Tx) (watch : List String)
    (rm : Bool) (h : tx.tx_id = "") :
    run_once cfg limiar e seen (l1 ++ tx :: l2) watch rm
      = run_once cfg limiar e seen (l1 ++ l2) watch rm := by
  have key : (filter_by_addresses (l1 ++ tx :: l2) watch rm).filter
      (fun t => t.tx_id != "" && !seen.contains t.tx_id)
      = (filter_by_addresses (l1 ++ l2) watch rm).filter
      (fun t => t.tx_id != "" && !seen.contains t.tx_id) := by
    unfold filter_by_addresses
    split_ifs with hcase
    · simp [List.filter_append, List.filter_cons, h]
    · simp only [List.filter_append, List.filter_cons]
      split_ifs with hw <;>
        simp [List.filter_filter, List.filter_cons, h]
  simp only [run_once, key]

def txC10 : Tx :=
  { tx_id := "", timestamp := some 0, from_address := "0xC",
    to_address := "0xD", amount := 1, token := "ETH", method := "TRANSFER" }

/-- Witness for C10: a first-appearance transaction with an empty id leaves
the tick identical to the empty batch. -/
theorem empty_tx_id_dropped_witness :
    run_once defaultConfig 50 engineC3 [] ([] ++ txC10 :: []) [] false
      = run_once defaultConfig 50 engineC3 [] ([] ++ []) [] false :=
  empty_tx_id_dropped defaultConfig 50 engineC3 [] [] [] txC10 [] false rfl

end SafeScore
